import Mathlib

/-!
Shallow embedding of the CDN analytics service
(`analytics-service/main.py`): the ingestion fan-out (`track_request`),
the Redis counter-cache semantics it relies on (`hincrby`, `expire`,
`delete`), the read-side derivation engine (`get_realtime_metrics`,
`get_time_series_data`, `get_geographic_distribution`, `get_top_content`,
`get_edge_server_performance`, `generate_daily_report`), the retention
cleanup (`cleanup_old_data`) and the daily-report endpoint's date
validation.

Modelling conventions:
* machine integers are `Int` (Python ints are unbounded, Redis counters
  are signed 64-bit but no claim exercises overflow);
* Python float arithmetic in rate computations is modelled exactly over
  `ℚ`; `round(x, 2)` is modelled as round-half-to-even on hundredths,
  matching Python's bankers rounding on exact ties;
* `datetime.fromtimestamp(..).strftime` and `DATE(timestamp)` (local
  calendar-date formatting) are abstracted as a parameter
  `dateOf : Int → String`;
* fallible store calls are modelled by `Except String` inputs or by an
  explicit failure-injection argument.
-/

set_option autoImplicit false

namespace CDN

/-- Kernel-computable floor of a rational. -/
def ratFloor (q : ℚ) : ℤ := q.num.fdiv q.den

/-- `ratFloor` is the floor. -/
theorem ratFloor_eq (q : ℚ) : ratFloor q = ⌊q⌋ := by
  rw [ratFloor, Rat.floor_def, Int.fdiv_eq_ediv _ (by positivity)]

/-- Round half to even, as Python's `round` does on exact ties. -/
def roundHalfEven (q : ℚ) : ℤ :=
  let f : ℤ := ratFloor q
  let r : ℚ := q - f
  if r < 1/2 then f
  else if 1/2 < r then f + 1
  else if f % 2 = 0 then f else f + 1

/-- Python's `round(x, 2)`: round to 2 decimal places, ties to even. -/
def pyRound2 (q : ℚ) : ℚ := (roundHalfEven (q * 100) : ℚ) / 100

/-- PostgreSQL's `ROUND(x, 2)` on `numeric` (ties away from zero; all uses
in this service are on nonnegative values, where it agrees with
round-half-up). -/
def sqlRound2 (q : ℚ) : ℚ := (ratFloor (q * 100 + 1/2) : ℚ) / 100

/-- Python's `str.lower()` restricted to the character-level case map
(ASCII-faithful; the service's outcome labels are ASCII). -/
def pyLower (s : String) : String := String.mk (s.data.map Char.toLower)

/-- The validated tracking payload (`TrackingData` pydantic model). -/
structure TrackingData where
  timestamp : Int
  method : String
  path : String
  cache_status : String
  edge_server : String
  edge_region : String
  response_time : Int
  bytes_sent : Int
  client_ip : String
  user_agent : Option String

/-- One point written to the Time-Series Sink (`influxdb_client.Point`
built in `track_request`). -/
structure InfluxPoint where
  measurement : String
  method : String
  cache_status : String
  edge_server : String
  edge_region : String
  user_agent : String
  response_time : Int
  bytes_sent : Int
  path : String
  client_ip : String
  time : Int
deriving DecidableEq

/-- The point `track_request` constructs from a payload: measurement
`http_requests`, tags verbatim (user agent defaulted to `unknown`),
numeric and string fields, timestamp at second precision. -/
def mkPoint (d : TrackingData) : InfluxPoint :=
  { measurement := "http_requests"
    method := d.method
    cache_status := d.cache_status
    edge_server := d.edge_server
    edge_region := d.edge_region
    user_agent := d.user_agent.getD "unknown"
    response_time := d.response_time
    bytes_sent := d.bytes_sent
    path := d.path
    client_ip := d.client_ip
    time := d.timestamp }

/-- The Counter Cache (Redis): key liveness, per-key hash of integer
counters (absent fields read as 0, as the service does with
`result.get(field, 0)`), and per-key TTL in seconds. -/
structure RedisState where
  live : String → Bool
  data : String → String → Int
  ttl : String → Option Int

/-- The empty cache: no keys, all counters 0, no TTLs. -/
def RedisState.empty : RedisState :=
  { live := fun _ => false, data := fun _ _ => 0, ttl := fun _ => none }

/-- `HINCRBY key field n`: creates the key if absent and adds `n` to the
field (absent fields count as 0). Does not touch the TTL. -/
def RedisState.hincrby (r : RedisState) (key field : String) (n : Int) : RedisState :=
  { live := fun k => if k = key then true else r.live k
    data := fun k f => if k = key ∧ f = field then r.data k f + n else r.data k f
    ttl := r.ttl }

/-- `EXPIRE key seconds`: sets the TTL of an existing key; a missing key
is left untouched. -/
def RedisState.expire (r : RedisState) (key : String) (seconds : Int) : RedisState :=
  { r with ttl := fun k => if k = key ∧ r.live key then some seconds else r.ttl k }

/-- `DEL key`: returns whether the key existed and removes it (its hash
fields and TTL with it). -/
def RedisState.del (r : RedisState) (key : String) : Bool × RedisState :=
  (r.live key,
    { live := fun k => if k = key then false else r.live k
      data := fun k f => if k = key then 0 else r.data k f
      ttl := fun k => if k = key then none else r.ttl k })

/-- Joint state of the two write-side stores touched by the fan-out. -/
structure TrackState where
  influx : List InfluxPoint
  redis : RedisState

/-- Fresh stores: nothing written yet. -/
def initialTrackState : TrackState :=
  { influx := [], redis := RedisState.empty }

/-- Outcome of the `/track` endpoint as seen by the caller. -/
inductive TrackResponse
  | success
  | httpError (status : Nat) (detail : String)
deriving DecidableEq

/-- The `/track` endpoint (`track_request`). `dateOf` abstracts
`datetime.fromtimestamp(ts).strftime(\x27%Y-%m-%d\x27)`; `influxError`
injects a failure of the time-series write (`write_api.write` raising,
carrying the exception message). On such a failure the handler's
`except` block raises `HTTPException(500, str(e))` before any Redis
call; otherwise it appends the point, then increments `total_requests`,
`cache_<lower(cache_status)>`, `total_bytes`, `status_200` in the daily
bucket and resets the bucket TTL to `86400 * 7` seconds. -/
def trackRequest (dateOf : Int → String) (influxError : Option String)
    (d : TrackingData) (s : TrackState) : TrackResponse × TrackState :=
  match influxError with
  | some e => (.httpError 500 e, s)
  | none =>
    let s1 : TrackState := { s with influx := s.influx ++ [mkPoint d] }
    let key := "analytics:" ++ dateOf d.timestamp
    let r1 := s1.redis.hincrby key "total_requests" 1
    let r2 := r1.hincrby key ("cache_" ++ pyLower d.cache_status) 1
    let r3 := r2.hincrby key "total_bytes" d.bytes_sent
    let r4 := r3.hincrby key "status_200" 1
    let r5 := r4.expire key (86400 * 7)
    (.success, { s1 with redis := r5 })

/-- Net change a successfully tracked event makes to each field of its
daily bucket: `total_requests` + 1, `cache_<lower(outcome)>` + 1,
`total_bytes` + bytes sent, `status_200` + 1. -/
def bucketDelta (d : TrackingData) (f : String) : Int :=
  (if f = "total_requests" then 1 else 0)
  + (if f = "cache_" ++ pyLower d.cache_status then 1 else 0)
  + (if f = "total_bytes" then d.bytes_sent else 0)
  + (if f = "status_200" then 1 else 0)

/-- The bucket key a tracked event writes to. -/
def bucketKey (dateOf : Int → String) (d : TrackingData) : String :=
  "analytics:" ++ dateOf d.timestamp

/-- A sequence of `/track` calls (each with its injected time-series
outcome) applied to a starting state. -/
def runTrack (dateOf : Int → String) (evs : List (Option String × TrackingData))
    (s : TrackState) : TrackState :=
  evs.foldl (fun st e => (trackRequest dateOf e.1 e.2 st).2) s

/-- Result shape of `get_realtime_metrics`. -/
structure RealtimeMetrics where
  total_requests : Int
  cache_hits : Int
  cache_misses : Int
  cache_hit_rate : ℚ
  status_codes : String → Int
  bytes_served : Int

/-- `AnalyticsService.get_realtime_metrics`, as a function of today's
bucket hash (absent fields are 0): sums the dual-cased `cache_hit` and
`cache_HIT` counters (likewise for miss); if both sums are zero but
`total_requests` is positive, estimates misses as
`max(1, total_requests // 10)` and hits as the remainder; the hit rate
is `round(hits / total * 100, 2)` or 0 when `total_requests` is not
positive; status counters are the fields starting with `status_`. -/
def getRealtimeMetrics (bucket : String → Int) : RealtimeMetrics :=
  let total_requests := bucket "total_requests"
  let ch := bucket "cache_hit" + bucket "cache_HIT"
  let cm := bucket "cache_miss" + bucket "cache_MISS"
  let cache_misses :=
    if ch = 0 ∧ cm = 0 ∧ 0 < total_requests then max 1 (Int.fdiv total_requests 10) else cm
  let cache_hits :=
    if ch = 0 ∧ cm = 0 ∧ 0 < total_requests then
      total_requests - max 1 (Int.fdiv total_requests 10)
    else ch
  { total_requests := total_requests
    cache_hits := cache_hits
    cache_misses := cache_misses
    cache_hit_rate :=
      if 0 < total_requests then
        pyRound2 ((cache_hits : ℚ) / (total_requests : ℚ) * 100)
      else 0
    status_codes := fun k => if k.startsWith "status_" then bucket k else 0
    bytes_served := bucket "total_bytes" }

/-- The `get_realtime_metrics` method body has no `try/except`: a store
failure while reading the bucket propagates out of the method. -/
def getRealtimeMetricsOp (store : Except String (String → Int)) :
    Except String RealtimeMetrics :=
  match store with
  | .ok bucket => .ok (getRealtimeMetrics bucket)
  | .error e => .error e

/-- Response of the `/metrics/realtime` route: the route handler catches
the propagated store error and raises `HTTPException(500, str(e))`. -/
inductive RealtimeResponse
  | ok (m : RealtimeMetrics)
  | httpError (status : Nat) (detail : String)

/-- The `/metrics/realtime` endpoint wrapping `get_realtime_metrics`. -/
def realtimeEndpoint (store : Except String (String → Int)) : RealtimeResponse :=
  match getRealtimeMetricsOp store with
  | .ok m => .ok m
  | .error e => .httpError 500 e

/-- One record of an InfluxDB query result table. -/
structure InfluxRecord where
  time : Int
  field : String
  value : Int
  tags : List (String × String)
deriving DecidableEq

/-- One flattened entry of the time-series response. -/
structure TSEntry where
  timestamp : Int
  field : String
  value : Int
  tags : List (String × String)
deriving DecidableEq

/-- `AnalyticsService.get_time_series_data`: flattens the query result
tables into (time, field, value, tags) entries; on a query failure the
`except` block logs and returns the empty list. -/
def getTimeSeriesData (queryRes : Except String (List (List InfluxRecord))) :
    List TSEntry :=
  match queryRes with
  | .error _ => []
  | .ok tables =>
    tables.flatMap (fun table =>
      table.map (fun rec =>
        { timestamp := rec.time, field := rec.field
          value := rec.value, tags := rec.tags }))

/-- One row of the external `request_logs` table. -/
structure RequestLog where
  id : Nat
  timestamp : Int
  client_ip : String
  bytes_sent : Int
  response_time : Int
  cache_status : String
  status_code : Int
  country_code : Option String
  region : String
  edge_server_id : Nat
  file_id : Nat
deriving DecidableEq

/-- One row of the external `files` dimension table. -/
structure FileDim where
  id : Nat
  filename : String
  original_name : String
  mimetype : String
  size : Int
deriving DecidableEq

/-- One row of the external `edge_servers` dimension table. -/
structure EdgeServer where
  id : Nat
  region : String
  status : String
  last_heartbeat : Int
deriving DecidableEq

/-- The relational store consumed by the derivation engine. -/
structure Database where
  request_logs : List RequestLog
  files : List FileDim
  edge_servers : List EdgeServer
deriving DecidableEq

/-- Insertion by a boolean order, used to model SQL `ORDER BY`. -/
def insertBy {α : Type} (le : α → α → Bool) (x : α) : List α → List α
  | [] => [x]
  | y :: ys => if le x y then x :: y :: ys else y :: insertBy le x ys

/-- Insertion sort by a boolean order (SQL `ORDER BY ... DESC`; tie
order among equal keys is unspecified in SQL and irrelevant here). -/
def sortBy {α : Type} (le : α → α → Bool) (l : List α) : List α :=
  l.foldr (insertBy le) []

/-- One row of the geographic-distribution result. -/
structure GeoRow where
  country_code : String
  region : String
  request_count : Nat
  total_bytes : Int
deriving DecidableEq

/-- Result of `get_geographic_distribution`. -/
structure GeoResult where
  countries : List GeoRow
  total_countries : Nat
deriving DecidableEq

/-- The geographic-distribution SQL: 24-hour window, non-null country,
grouped by (country, region) with count and byte sum, ordered by count
descending, top 50. -/
def geoGroups (now : Int) (logs : List RequestLog) : List GeoRow :=
  let recent := logs.filter (fun r => now - 86400 < r.timestamp ∧ r.country_code ≠ none)
  let keys := (recent.map (fun r => (r.country_code.getD "", r.region))).dedup
  let rows := keys.map (fun p =>
    let mine := recent.filter (fun r => r.country_code.getD "" = p.1 ∧ r.region = p.2)
    { country_code := p.1, region := p.2
      request_count := mine.length
      total_bytes := (mine.map (fun r => r.bytes_sent)).sum })
  (sortBy (fun a b => b.request_count ≤ a.request_count) rows).take 50

/-- The `try` block of `AnalyticsService.get_geographic_distribution`:
a failure of the query executed inside the `try` is caught, logged and
converted to an empty country list with `total_countries = 0`. The
`get_db_connection()` call that precedes the `try` is modelled
separately in `getGeographicDistributionFromConn`. -/
def getGeographicDistribution (queryRes : Except String (List RequestLog))
    (now : Int) : GeoResult :=
  match queryRes with
  | .error _ => { countries := [], total_countries := 0 }
  | .ok logs =>
    let rows := geoGroups now logs
    { countries := rows, total_countries := rows.length }

/-- One row of the top-content result. -/
structure TopContentRow where
  filename : String
  original_name : String
  mimetype : String
  size : Int
  request_count : Nat
  total_bytes_served : Int
  avg_response_time : Option ℚ
  cache_hits : Nat
  cache_misses : Nat
  cache_hit_rate : ℚ
deriving DecidableEq

/-- The per-file aggregate of the top-content query plus the Python-side
hit rate: hits and misses count rows whose `cache_status` equals the
string literals `HIT` / `MISS` (SQL `=` is case-sensitive);
`cache_hit_rate = round(hits / requests * 100, 2)` or 0 when the group
is empty. -/
def topContentRow (f : FileDim) (rows : List RequestLog) : TopContentRow :=
  { filename := f.filename
    original_name := f.original_name
    mimetype := f.mimetype
    size := f.size
    request_count := rows.length
    total_bytes_served := (rows.map (fun r => r.bytes_sent)).sum
    avg_response_time :=
      if rows.length = 0 then none
      else some (((rows.map (fun r => (r.response_time : ℚ))).sum) / rows.length)
    cache_hits := (rows.filter (fun r => r.cache_status = "HIT")).length
    cache_misses := (rows.filter (fun r => r.cache_status = "MISS")).length
    cache_hit_rate :=
      if 0 < rows.length then
        pyRound2 (((rows.filter (fun r => r.cache_status = "HIT")).length : ℚ)
          / (rows.length : ℚ) * 100)
      else 0 }

/-- The top-content join and grouping: inner join of `files` to the
24-hour window of `request_logs` (a file appears only with at least one
matching row), ordered by request count descending, limited. -/
def topContentQuery (db : Database) (now : Int) (limit : Nat) : List TopContentRow :=
  let recent := db.request_logs.filter (fun r => now - 86400 < r.timestamp)
  let grouped := db.files.filterMap (fun f =>
    let rows := recent.filter (fun r => r.file_id = f.id)
    if rows.isEmpty then none else some (topContentRow f rows))
  (sortBy (fun a b => b.request_count ≤ a.request_count) grouped).take limit

/-- The `try` block of `AnalyticsService.get_top_content`: a failure of
the query executed inside the `try` is caught, logged and converted to
the empty list. The `get_db_connection()` call that precedes the `try`
is modelled separately in `getTopContentFromConn`. -/
def getTopContent (queryRes : Except String Database) (now : Int)
    (limit : Nat) : List TopContentRow :=
  match queryRes with
  | .error _ => []
  | .ok db => topContentQuery db now limit

/-- One row of the edge-server performance result. -/
structure EdgePerfRow where
  id : Nat
  region : String
  status : String
  last_heartbeat : Int
  total_requests : Nat
  avg_response_time : ℚ
  total_bytes_served : Int
  cache_hit_rate : ℚ
deriving DecidableEq

/-- The edge-performance left join: every edge server appears; servers
with no request in the one-hour window report zeros via `COALESCE`;
otherwise count, average response time, byte sum, and the SQL-computed
`ROUND(hits / total * 100, 2)`. -/
def edgePerfQuery (db : Database) (now : Int) : List EdgePerfRow :=
  let recent := db.request_logs.filter (fun r => now - 3600 < r.timestamp)
  let rows := db.edge_servers.map (fun es =>
    let mine := recent.filter (fun r => r.edge_server_id = es.id)
    if mine.isEmpty then
      { id := es.id, region := es.region, status := es.status
        last_heartbeat := es.last_heartbeat
        total_requests := 0, avg_response_time := 0
        total_bytes_served := 0, cache_hit_rate := 0 }
    else
      { id := es.id, region := es.region, status := es.status
        last_heartbeat := es.last_heartbeat
        total_requests := mine.length
        avg_response_time := ((mine.map (fun r => (r.response_time : ℚ))).sum) / mine.length
        total_bytes_served := (mine.map (fun r => r.bytes_sent)).sum
        cache_hit_rate :=
          sqlRound2 (((mine.filter (fun r => r.cache_status = "HIT")).length : ℚ)
            / (mine.length : ℚ) * 100) })
  sortBy (fun a b => b.total_requests ≤ a.total_requests) rows

/-- The `try` block of `AnalyticsService.get_edge_server_performance`:
a failure of the query executed inside the `try` is caught, logged and
converted to the empty list. The `get_db_connection()` call that
precedes the `try` is modelled separately in
`getEdgeServerPerformanceFromConn`. -/
def getEdgeServerPerformance (queryRes : Except String Database)
    (now : Int) : List EdgePerfRow :=
  match queryRes with
  | .error _ => []
  | .ok db => edgePerfQuery db now

/-- Summary block of the daily report. -/
structure DailySummary where
  total_requests : Nat
  unique_visitors : Nat
  total_bytes : Int
  avg_response_time : Option ℚ
  cache_hits : Nat
  cache_misses : Nat
  success_requests : Nat
  error_requests : Nat
  cache_hit_rate : ℚ
  error_rate : ℚ
deriving DecidableEq

/-- The daily-report stats query plus the Python-side rates, over the
rows of the requested calendar date: counts, distinct-client count,
byte sum, average response time (SQL `AVG`, `NULL` on no rows),
case-sensitive HIT/MISS counts, 2xx and >= 400 counts;
`cache_hit_rate = round(hits / (hits + misses) * 100, 2)` or 0 when no
cache-classified rows exist; `error_rate = round(errors / total * 100, 2)`
or 0 when the date has no rows. -/
def dailySummary (dateOf : Int → String) (logs : List RequestLog)
    (date : String) : DailySummary :=
  let rows := logs.filter (fun r => dateOf r.timestamp = date)
  let hits := (rows.filter (fun r => r.cache_status = "HIT")).length
  let misses := (rows.filter (fun r => r.cache_status = "MISS")).length
  let errors := (rows.filter (fun r => 400 ≤ r.status_code)).length
  { total_requests := rows.length
    unique_visitors := (rows.map (fun r => r.client_ip)).dedup.length
    total_bytes := (rows.map (fun r => r.bytes_sent)).sum
    avg_response_time :=
      if rows.length = 0 then none
      else some (((rows.map (fun r => (r.response_time : ℚ))).sum) / rows.length)
    cache_hits := hits
    cache_misses := misses
    success_requests :=
      (rows.filter (fun r => 200 ≤ r.status_code ∧ r.status_code < 300)).length
    error_requests := errors
    cache_hit_rate :=
      if 0 < hits + misses then
        pyRound2 ((hits : ℚ) / ((hits : ℚ) + (misses : ℚ)) * 100)
      else 0
    error_rate :=
      if 0 < rows.length then pyRound2 ((errors : ℚ) / (rows.length : ℚ) * 100)
      else 0 }

/-- One entry of the daily report's top-files list. -/
structure TopFileRow where
  filename : String
  original_name : String
  requests : Nat
  bytes_served : Int
deriving DecidableEq

/-- The daily report's top-10-files query: files joined to the date's
rows, ordered by request count descending. -/
def dailyTopFiles (dateOf : Int → String) (db : Database) (date : String) :
    List TopFileRow :=
  let rows := db.request_logs.filter (fun r => dateOf r.timestamp = date)
  let grouped := db.files.filterMap (fun f =>
    let mine := rows.filter (fun r => r.file_id = f.id)
    if mine.isEmpty then none
    else some { filename := f.filename, original_name := f.original_name
                requests := mine.length
                bytes_served := (mine.map (fun r => r.bytes_sent)).sum })
  (sortBy (fun a b => b.requests ≤ a.requests) grouped).take 10

/-- The daily report's status-code histogram for the date, ordered by
count descending. -/
def dailyStatusCodes (dateOf : Int → String) (logs : List RequestLog)
    (date : String) : List (Int × Nat) :=
  let rows := logs.filter (fun r => dateOf r.timestamp = date)
  let codes := (rows.map (fun r => r.status_code)).dedup
  let hist := codes.map (fun c => (c, (rows.filter (fun r => r.status_code = c)).length))
  sortBy (fun a b => b.2 ≤ a.2) hist

/-- A daily report: either the full report or, after a query failure,
a degraded object carrying only the date and the error string. -/
inductive DailyReport
  | report (date : String) (summary : DailySummary)
      (top_files : List TopFileRow) (status_codes : List (Int × Nat))
  | degraded (date : String) (error : String)
deriving DecidableEq

/-- The `try` block of `AnalyticsService.generate_daily_report`: a
failure of any of the three queries executed inside the `try` is
caught, logged and converted to the degraded date-plus-error object.
The `get_db_connection()` call that precedes the `try` is modelled
separately in `generateDailyReportFromConn`. -/
def generateDailyReport (dateOf : Int → String)
    (queryRes : Except String Database) (date : String) : DailyReport :=
  match queryRes with
  | .error e => .degraded date e
  | .ok db =>
    .report date (dailySummary dateOf db.request_logs date)
      (dailyTopFiles dateOf db date)
      (dailyStatusCodes dateOf db.request_logs date)

/-- Outcome of the two fallible stages of a relational read: each of the
four relational methods first calls `get_db_connection()` outside its
`try` block (a failure there raises out of the method), and only then
runs its queries inside the `try` (a failure there is caught). -/
inductive DbFetch (α : Type)
  | connError (msg : String)
  | queryError (msg : String)
  | fetched (data : α)

/-- `AnalyticsService.get_geographic_distribution` as a whole method:
`conn = self.get_db_connection()` runs before the `try`, so a
connection failure propagates (the route surfaces it as HTTP 500);
only the query stage inside the `try` is fail-soft. -/
def getGeographicDistributionFromConn (f : DbFetch (List RequestLog))
    (now : Int) : Except String GeoResult :=
  match f with
  | .connError e => .error e
  | .queryError e => .ok (getGeographicDistribution (.error e) now)
  | .fetched logs => .ok (getGeographicDistribution (.ok logs) now)

/-- `AnalyticsService.get_top_content` as a whole method: the
connection is acquired before the `try`, so a connection failure
propagates; only the query stage is fail-soft. -/
def getTopContentFromConn (f : DbFetch Database) (now : Int)
    (limit : Nat) : Except String (List TopContentRow) :=
  match f with
  | .connError e => .error e
  | .queryError e => .ok (getTopContent (.error e) now limit)
  | .fetched db => .ok (getTopContent (.ok db) now limit)

/-- `AnalyticsService.get_edge_server_performance` as a whole method:
the connection is acquired before the `try`, so a connection failure
propagates; only the query stage is fail-soft. -/
def getEdgeServerPerformanceFromConn (f : DbFetch Database)
    (now : Int) : Except String (List EdgePerfRow) :=
  match f with
  | .connError e => .error e
  | .queryError e => .ok (getEdgeServerPerformance (.error e) now)
  | .fetched db => .ok (getEdgeServerPerformance (.ok db) now)

/-- `AnalyticsService.generate_daily_report` as a whole method: the
connection is acquired before the `try`, so a connection failure
propagates; only the query stage degrades to the date-plus-error
object. -/
def generateDailyReportFromConn (dateOf : Int → String)
    (f : DbFetch Database) (date : String) : Except String DailyReport :=
  match f with
  | .connError e => .error e
  | .queryError e => .ok (generateDailyReport dateOf (.error e) date)
  | .fetched db => .ok (generateDailyReport dateOf (.ok db) date)

/-- State of the two stores touched by retention cleanup. -/
structure CleanupState where
  logs : List RequestLog
  redis : RedisState

/-- Failure injection for `cleanup_old_data`: no failure, a failure of
the relational `DELETE`, a failure while deleting the candidate cache
key at a given loop index, or a failure of the final `COMMIT`. Each
carries the exception message. -/
inductive CleanupFail
  | ok
  | sqlDelete (msg : String)
  | redisAt (k : Nat) (msg : String)
  | commit (msg : String)
deriving DecidableEq

/-- The Redis deletion loop of `cleanup_old_data` over the candidate
keys (paired with the running loop index): each `DEL` takes effect
immediately and bumps the deletion count when the key existed; an
injected failure at the current index raises before that `DEL`,
keeping the Redis effects made so far. -/
def cleanupDeleteLoop (fail : CleanupFail) :
    List String → Nat → Nat → RedisState → Except String Nat × RedisState
  | [], _, cnt, r => (.ok cnt, r)
  | key :: rest, i, cnt, r =>
    match fail with
    | .redisAt j msg =>
      if i = j then (.error msg, r)
      else
        let d := r.del key
        cleanupDeleteLoop fail rest (i + 1) (cnt + if d.1 then 1 else 0) d.2
    | _ =>
      let d := r.del key
      cleanupDeleteLoop fail rest (i + 1) (cnt + if d.1 then 1 else 0) d.2

/-- The candidate cache keys scanned by cleanup: for each loop index
`i < days_to_keep + 30`, the key of the date `i` days before the cutoff
(`cutoff_date = now - days_to_keep days`). -/
def cleanupCandidates (dateOf : Int → String) (now : Int) (daysToKeep : Nat) :
    List String :=
  (List.range (daysToKeep + 30)).map (fun i : Nat =>
    "analytics:" ++ dateOf (now - ((daysToKeep : Int) + (i : Int)) * 86400))

/-- `AnalyticsService.cleanup_old_data`: deletes `request_logs` rows
older than the window inside an open transaction, deletes the candidate
cache keys (immediately effective), then commits; on any exception it
rolls the relational deletion back (Redis deletions stay) and
re-raises. The injected `fail` chooses which step, if any, raises. -/
def cleanupOldData (dateOf : Int → String) (now : Int) (daysToKeep : Nat)
    (fail : CleanupFail) (s : CleanupState) :
    Except String (Nat × Nat) × CleanupState :=
  match fail with
  | .sqlDelete msg => (.error msg, s)
  | _ =>
    let cutoffTs := now - (daysToKeep : Int) * 86400
    let deletedLogs := (s.logs.filter (fun r => r.timestamp < cutoffTs)).length
    let remaining := s.logs.filter (fun r => ¬ r.timestamp < cutoffTs)
    let loop := cleanupDeleteLoop fail (cleanupCandidates dateOf now daysToKeep) 0 0 s.redis
    match loop.1 with
    | .error msg => (.error msg, { logs := s.logs, redis := loop.2 })
    | .ok deletedKeys =>
      match fail with
      | .commit msg => (.error msg, { logs := s.logs, redis := loop.2 })
      | _ => (.ok (deletedLogs, deletedKeys), { logs := remaining, redis := loop.2 })

/-- Split a character list on dashes (the separators of `%Y-%m-%d`). -/
def splitOnDash : List Char → List (List Char)
  | [] => [[]]
  | c :: rest =>
    if c = '-' then [] :: splitOnDash rest
    else
      match splitOnDash rest with
      | [] => [[c]]
      | g :: gs => (c :: g) :: gs

/-- Numeric value of a digit list. -/
def digitsToNat (cs : List Char) : Nat :=
  cs.foldl (fun n c => 10 * n + (c.toNat - 48)) 0

/-- The Gregorian leap-year rule used by `datetime`. -/
def isLeapYear (y : Nat) : Bool :=
  y % 4 = 0 && (y % 100 ≠ 0 || y % 400 = 0)

/-- Days in a month, as validated by the `datetime` constructor. -/
def daysInMonth (y m : Nat) : Nat :=
  if m = 2 then (if isLeapYear y then 29 else 28)
  else if m = 4 ∨ m = 6 ∨ m = 9 ∨ m = 11 then 30
  else 31

/-- `datetime.strptime(s, \x27%Y-%m-%d\x27)`: exactly three dash-separated
all-digit groups consuming the whole string; the year group is exactly
four digits with value at least 1 (`datetime.MINYEAR`); month and day
groups are one or two digits; month in 1..12, day in 1..days-in-month.
Returns the parsed (year, month, day), or `none` when `strptime` (or
the `datetime` constructor) raises `ValueError`. -/
def parseYMD (s : String) : Option (Nat × Nat × Nat) :=
  match splitOnDash s.toList with
  | [ys, ms, ds] =>
    if ys.length = 4 && ys.all Char.isDigit
        && 1 ≤ ms.length && ms.length ≤ 2 && ms.all Char.isDigit
        && 1 ≤ ds.length && ds.length ≤ 2 && ds.all Char.isDigit then
      let y := digitsToNat ys
      let m := digitsToNat ms
      let d := digitsToNat ds
      if 1 ≤ y && 1 ≤ m && m ≤ 12 && 1 ≤ d && d ≤ daysInMonth y m then
        some (y, m, d)
      else none
    else none
  | _ => none

/-- Response of the `/reports/daily/{date}` route. -/
inductive ReportResponse
  | ok (r : DailyReport)
  | httpError (status : Nat) (detail : String)
deriving DecidableEq

/-- The `/reports/daily/{date}` endpoint (`get_daily_report`): validates
the date with `strptime` first; a `ValueError` becomes
`HTTPException(400)` and `generate_daily_report` is never called
(the returned flag records whether the engine was invoked). -/
def getDailyReportEndpoint (dateOf : Int → String)
    (queryRes : Except String Database) (date : String) :
    ReportResponse × Bool :=
  match parseYMD date with
  | none => (.httpError 400 "Invalid date format. Use YYYY-MM-DD", false)
  | some _ => (.ok (generateDailyReport dateOf queryRes date), true)

/-! ### Helper lemmas about the fan-out -/

theorem trackRequest_fail (dateOf : Int → String) (e : String)
    (d : TrackingData) (s : TrackState) :
    trackRequest dateOf (some e) d s = (.httpError 500 e, s) := rfl

theorem trackRequest_ok_fst (dateOf : Int → String) (d : TrackingData)
    (s : TrackState) : (trackRequest dateOf none d s).1 = .success := rfl

theorem trackRequest_ok_influx (dateOf : Int → String) (d : TrackingData)
    (s : TrackState) :
    (trackRequest dateOf none d s).2.influx = s.influx ++ [mkPoint d] := rfl

theorem trackRequest_ok_data (dateOf : Int → String) (d : TrackingData)
    (s : TrackState) (k f : String) :
    (trackRequest dateOf none d s).2.redis.data k f =
      s.redis.data k f + (if k = bucketKey dateOf d then bucketDelta d f else 0) := by
  by_cases h : k = bucketKey dateOf d
  · subst h
    simp only [trackRequest, RedisState.hincrby, RedisState.expire, bucketKey, bucketDelta,
      eq_self_iff_true, true_and, if_true]
    split_ifs <;> ring
  · simp only [trackRequest, RedisState.hincrby, RedisState.expire, bucketKey] at *
    have h' : ¬ (k = "analytics:" ++ dateOf d.timestamp) := h
    simp [h']

theorem trackRequest_ok_live (dateOf : Int → String) (d : TrackingData)
    (s : TrackState) (k : String) :
    (trackRequest dateOf none d s).2.redis.live k =
      (if k = bucketKey dateOf d then true else s.redis.live k) := by
  by_cases h : k = bucketKey dateOf d
  · simp only [trackRequest, RedisState.hincrby, RedisState.expire, bucketKey] at *
    simp [h]
  · have h' : ¬ (k = "analytics:" ++ dateOf d.timestamp) := h
    simp only [trackRequest, RedisState.hincrby, RedisState.expire, bucketKey] at *
    simp [h']

theorem trackRequest_ok_ttl (dateOf : Int → String) (d : TrackingData)
    (s : TrackState) (k : String) :
    (trackRequest dateOf none d s).2.redis.ttl k =
      (if k = bucketKey dateOf d then some (86400 * 7) else s.redis.ttl k) := by
  by_cases h : k = bucketKey dateOf d
  · simp only [trackRequest, RedisState.hincrby, RedisState.expire, bucketKey] at *
    simp [h]
  · have h' : ¬ (k = "analytics:" ++ dateOf d.timestamp) := h
    simp only [trackRequest, RedisState.hincrby, RedisState.expire, bucketKey] at *
    simp [h']

/-- A concrete tracking payload used by witness theorems. -/
def sampleEvent : TrackingData :=
  { timestamp := 1700000000, method := "GET", path := "/img/logo.png"
    cache_status := "HIT", edge_server := "edge-1", edge_region := "us-east"
    response_time := 12, bytes_sent := 1024, client_ip := "10.0.0.1"
    user_agent := none }

/-- A concrete local-date formatter used by witness theorems. -/
def sampleDateOf : Int → String := fun _ => "2023-11-14"

/-! ### Claims about the ingestion fan-out -/

/-- C1: if the time-series write of the track fan-out throws, the whole
operation aborts with an HTTP 500 carrying the error, and the state —
in particular the Counter Cache daily bucket of the event — is left
unmodified: no counter incremented, no TTL set. -/
theorem track_timeseries_failure_aborts (dateOf : Int → String) (e : String)
    (d : TrackingData) (s : TrackState) :
    (trackRequest dateOf (some e) d s).1 = .httpError 500 e
    ∧ (trackRequest dateOf (some e) d s).2 = s
    ∧ (trackRequest dateOf (some e) d s).2.redis.data (bucketKey dateOf d) =
        s.redis.data (bucketKey dateOf d)
    ∧ (trackRequest dateOf (some e) d s).2.redis.ttl (bucketKey dateOf d) =
        s.redis.ttl (bucketKey dateOf d) :=
  ⟨rfl, rfl, rfl, rfl⟩

/-- C2: a successfully ingested event changes its daily bucket (keyed by
the event's timestamp as a local calendar date) by exactly
`total_requests + 1`, `cache_<lower(outcome)> + 1`,
`total_bytes + bytes_sent`, `status_200 + 1`, resets that bucket's TTL
to 7 days, and touches no other key's counters or TTL. -/
theorem track_success_bucket_exact_changes (dateOf : Int → String)
    (d : TrackingData) (s : TrackState) :
    (trackRequest dateOf none d s).1 = .success
    ∧ (∀ f, (trackRequest dateOf none d s).2.redis.data (bucketKey dateOf d) f =
        s.redis.data (bucketKey dateOf d) f + bucketDelta d f)
    ∧ (∀ k, k ≠ bucketKey dateOf d →
        (trackRequest dateOf none d s).2.redis.data k = s.redis.data k)
    ∧ (trackRequest dateOf none d s).2.redis.ttl (bucketKey dateOf d) =
        some (86400 * 7)
    ∧ (∀ k, k ≠ bucketKey dateOf d →
        (trackRequest dateOf none d s).2.redis.ttl k = s.redis.ttl k) := by
  refine ⟨trackRequest_ok_fst dateOf d s, fun f => ?_, fun k hk => ?_, ?_, fun k hk => ?_⟩
  · rw [trackRequest_ok_data, if_pos rfl]
  · funext f
    rw [trackRequest_ok_data, if_neg hk, add_zero]
  · rw [trackRequest_ok_ttl, if_pos rfl]
  · rw [trackRequest_ok_ttl, if_neg hk]

/-- Witness for C2 at a concrete event: the four counters move by
exactly their deltas, and an unrelated key's counters and TTL are
untouched. -/
theorem track_success_bucket_exact_changes_witness :
    (trackRequest sampleDateOf none sampleEvent initialTrackState).1 = .success
    ∧ (trackRequest sampleDateOf none sampleEvent initialTrackState).2.redis.data
        (bucketKey sampleDateOf sampleEvent) "total_requests" =
        initialTrackState.redis.data (bucketKey sampleDateOf sampleEvent) "total_requests"
          + bucketDelta sampleEvent "total_requests"
    ∧ ("analytics:2023-11-13" ≠ bucketKey sampleDateOf sampleEvent
        ∧ (trackRequest sampleDateOf none sampleEvent initialTrackState).2.redis.data
            "analytics:2023-11-13" =
            initialTrackState.redis.data "analytics:2023-11-13")
    ∧ (trackRequest sampleDateOf none sampleEvent initialTrackState).2.redis.ttl
        (bucketKey sampleDateOf sampleEvent) = some (86400 * 7)
    ∧ ("analytics:2023-11-13" ≠ bucketKey sampleDateOf sampleEvent
        ∧ (trackRequest sampleDateOf none sampleEvent initialTrackState).2.redis.ttl
            "analytics:2023-11-13" =
            initialTrackState.redis.ttl "analytics:2023-11-13") := by
  have h := track_success_bucket_exact_changes sampleDateOf sampleEvent initialTrackState
  have hne : "analytics:2023-11-13" ≠ bucketKey sampleDateOf sampleEvent := by decide
  exact ⟨h.1, h.2.1 "total_requests", ⟨hne, h.2.2.1 _ hne⟩, h.2.2.2.1,
    ⟨hne, h.2.2.2.2 _ hne⟩⟩

/-- A concrete bucket with requests but no cache-outcome counters, used
by witness theorems. -/
def sampleBucket : String → Int := fun f => if f = "total_requests" then 42 else 0

/-! ### Claims about the real-time snapshot -/

/-- C3: when the four cache-outcome counters are absent (read as 0) and
`total_requests` is positive, the snapshot estimates
`cache_misses = max(1, total_requests // 10)` with integer (floor)
division, `cache_hits = total_requests - cache_misses`, and the two add
back up to `total_requests` exactly. -/
theorem realtime_fallback_estimate (bucket : String → Int)
    (h1 : bucket "cache_hit" = 0) (h2 : bucket "cache_HIT" = 0)
    (h3 : bucket "cache_miss" = 0) (h4 : bucket "cache_MISS" = 0)
    (h5 : 0 < bucket "total_requests") :
    (getRealtimeMetrics bucket).cache_misses =
        max 1 (Int.fdiv (bucket "total_requests") 10)
    ∧ (getRealtimeMetrics bucket).cache_hits =
        bucket "total_requests" - (getRealtimeMetrics bucket).cache_misses
    ∧ (getRealtimeMetrics bucket).cache_hits + (getRealtimeMetrics bucket).cache_misses =
        bucket "total_requests" := by
  have hcond : bucket "cache_hit" + bucket "cache_HIT" = 0 ∧
      bucket "cache_miss" + bucket "cache_MISS" = 0 ∧ 0 < bucket "total_requests" := by
    refine ⟨by rw [h1, h2, add_zero], by rw [h3, h4, add_zero], h5⟩
  simp only [getRealtimeMetrics, if_pos hcond]
  exact ⟨trivial, trivial, by ring⟩

/-- Witness for C3: a bucket holding only `total_requests = 42` yields
the estimated split 38 hits / 4 misses. -/
theorem realtime_fallback_estimate_witness :
    sampleBucket "cache_hit" = 0 ∧ sampleBucket "cache_HIT" = 0
    ∧ sampleBucket "cache_miss" = 0 ∧ sampleBucket "cache_MISS" = 0
    ∧ 0 < sampleBucket "total_requests"
    ∧ ((getRealtimeMetrics sampleBucket).cache_misses =
          max 1 (Int.fdiv (sampleBucket "total_requests") 10)
        ∧ (getRealtimeMetrics sampleBucket).cache_hits =
          sampleBucket "total_requests" - (getRealtimeMetrics sampleBucket).cache_misses
        ∧ (getRealtimeMetrics sampleBucket).cache_hits
            + (getRealtimeMetrics sampleBucket).cache_misses =
          sampleBucket "total_requests") :=
  ⟨by decide, by decide, by decide, by decide, by decide,
    realtime_fallback_estimate sampleBucket (by decide) (by decide) (by decide)
      (by decide) (by decide)⟩

/-! ### Bounds on the rounding helpers -/

theorem roundHalfEven_cases (q : ℚ) :
    roundHalfEven q = ⌊q⌋ ∨ roundHalfEven q = ⌊q⌋ + 1 := by
  simp only [roundHalfEven, ratFloor_eq]
  split_ifs <;> simp

theorem roundHalfEven_nonneg (q : ℚ) (h : 0 ≤ q) : 0 ≤ roundHalfEven q := by
  have hf : (0 : ℤ) ≤ ⌊q⌋ := Int.floor_nonneg.mpr h
  rcases roundHalfEven_cases q with hc | hc <;> omega

theorem roundHalfEven_le (q : ℚ) (n : ℤ) (h : q ≤ n) : roundHalfEven q ≤ n := by
  have hfl : ⌊q⌋ ≤ n := by
    have := Int.floor_le_floor h
    simpa using this
  rcases roundHalfEven_cases q with hc | hc
  · omega
  · by_cases hq : q - ⌊q⌋ < 1/2
    · simp only [roundHalfEven, ratFloor_eq, if_pos hq] at hc
      omega
    · have hlt : (⌊q⌋ : ℚ) < q := by
        have : (0 : ℚ) < q - ⌊q⌋ := by linarith
        linarith
      have : (⌊q⌋ : ℚ) < (n : ℚ) := lt_of_lt_of_le hlt h
      have : ⌊q⌋ < n := by exact_mod_cast this
      omega

theorem pyRound2_nonneg (q : ℚ) (h : 0 ≤ q) : 0 ≤ pyRound2 q := by
  have := roundHalfEven_nonneg (q * 100) (by positivity)
  rw [pyRound2]
  positivity

theorem pyRound2_le_100 (q : ℚ) (h : q ≤ 100) : pyRound2 q ≤ 100 := by
  have h1 : roundHalfEven (q * 100) ≤ (10000 : ℤ) := by
    apply roundHalfEven_le
    push_cast
    linarith
  have h2 : ((roundHalfEven (q * 100) : ℚ)) ≤ 10000 := by exact_mod_cast h1
  rw [pyRound2]
  linarith

/-- The raw percentage `h / t * 100` is within `[0, 100]` when
`0 ≤ h ≤ t` and `0 < t`. -/
theorem frac100_bounds (h t : ℤ) (h0 : 0 ≤ h) (hle : h ≤ t) (ht : 0 < t) :
    0 ≤ (h : ℚ) / (t : ℚ) * 100 ∧ (h : ℚ) / (t : ℚ) * 100 ≤ 100 := by
  have htq : (0 : ℚ) < (t : ℚ) := by exact_mod_cast ht
  have h0q : (0 : ℚ) ≤ (h : ℚ) := by exact_mod_cast h0
  have hleq : (h : ℚ) ≤ (t : ℚ) := by exact_mod_cast hle
  constructor
  · positivity
  · have : (h : ℚ) / (t : ℚ) ≤ 1 := (div_le_one htq).mpr hleq
    linarith

/-! ### Invariant of ingestion-produced buckets -/

theorem bucketDelta_eval_hit (d : TrackingData) :
    bucketDelta d "cache_hit" =
      (if "cache_hit" = "cache_" ++ pyLower d.cache_status then 1 else 0) := by
  rw [bucketDelta, if_neg (show ¬ ("cache_hit" = "total_requests") by decide),
    if_neg (show ¬ ("cache_hit" = "total_bytes") by decide),
    if_neg (show ¬ ("cache_hit" = "status_200") by decide)]
  ring

theorem bucketDelta_eval_HIT (d : TrackingData) :
    bucketDelta d "cache_HIT" =
      (if "cache_HIT" = "cache_" ++ pyLower d.cache_status then 1 else 0) := by
  rw [bucketDelta, if_neg (show ¬ ("cache_HIT" = "total_requests") by decide),
    if_neg (show ¬ ("cache_HIT" = "total_bytes") by decide),
    if_neg (show ¬ ("cache_HIT" = "status_200") by decide)]
  ring

theorem bucketDelta_eval_total (d : TrackingData) :
    bucketDelta d "total_requests" =
      1 + (if "total_requests" = "cache_" ++ pyLower d.cache_status then 1 else 0) := by
  rw [bucketDelta, if_pos rfl,
    if_neg (show ¬ ("total_requests" = "total_bytes") by decide),
    if_neg (show ¬ ("total_requests" = "status_200") by decide)]
  ring

theorem bucketDelta_hit_nonneg (d : TrackingData) : 0 ≤ bucketDelta d "cache_hit" := by
  rw [bucketDelta_eval_hit]; split_ifs <;> omega

theorem bucketDelta_HIT_nonneg (d : TrackingData) : 0 ≤ bucketDelta d "cache_HIT" := by
  rw [bucketDelta_eval_HIT]; split_ifs <;> omega

/-- Only one of the dual-cased hit counters can be the field an event
increments, so a single event adds at most as much to their sum as it
adds to `total_requests`. -/
theorem bucketDelta_hit_sum_le (d : TrackingData) :
    bucketDelta d "cache_hit" + bucketDelta d "cache_HIT" ≤
      bucketDelta d "total_requests" := by
  rw [bucketDelta_eval_hit, bucketDelta_eval_HIT, bucketDelta_eval_total]
  by_cases h1 : "cache_hit" = "cache_" ++ pyLower d.cache_status
  · have h2 : ¬ ("cache_HIT" = "cache_" ++ pyLower d.cache_status) := by
      intro h2
      exact absurd (h1.trans h2.symm) (by decide)
    rw [if_pos h1, if_neg h2]
    split_ifs <;> omega
  · rw [if_neg h1]
    split_ifs <;> omega

/-- Invariant of Counter Cache states produced by the fan-out: the
dual-cased hit counters are nonnegative and their sum never exceeds
`total_requests`, in every bucket. -/
def BucketInv (r : RedisState) : Prop :=
  ∀ k, 0 ≤ r.data k "cache_hit" ∧ 0 ≤ r.data k "cache_HIT"
    ∧ r.data k "cache_hit" + r.data k "cache_HIT" ≤ r.data k "total_requests"

theorem trackRequest_preserves_inv (dateOf : Int → String) (oe : Option String)
    (d : TrackingData) (s : TrackState) (h : BucketInv s.redis) :
    BucketInv (trackRequest dateOf oe d s).2.redis := by
  cases oe with
  | some e => exact h
  | none =>
    intro k
    obtain ⟨hh, hH, hs⟩ := h k
    rw [trackRequest_ok_data, trackRequest_ok_data, trackRequest_ok_data]
    by_cases hk : k = bucketKey dateOf d
    · rw [if_pos hk, if_pos hk, if_pos hk]
      have d1 := bucketDelta_hit_nonneg d
      have d2 := bucketDelta_HIT_nonneg d
      have d3 := bucketDelta_hit_sum_le d
      refine ⟨by linarith, by linarith, by linarith⟩
    · rw [if_neg hk, if_neg hk, if_neg hk]
      exact ⟨by linarith, by linarith, by linarith⟩

theorem runTrack_inv (dateOf : Int → String)
    (evs : List (Option String × TrackingData)) (s : TrackState)
    (h : BucketInv s.redis) : BucketInv (runTrack dateOf evs s).redis := by
  induction evs generalizing s with
  | nil => exact h
  | cons e rest ih =>
    exact ih _ (trackRequest_preserves_inv dateOf e.1 e.2 s h)

theorem initial_inv : BucketInv initialTrackState.redis := by
  intro k
  simp [initialTrackState, RedisState.empty]

/-- The snapshot's hit rate is within `[0, 100]` on any bucket
satisfying the ingestion invariant. -/
theorem realtime_rate_bound (bucket : String → Int)
    (hh : 0 ≤ bucket "cache_hit") (hH : 0 ≤ bucket "cache_HIT")
    (hsum : bucket "cache_hit" + bucket "cache_HIT" ≤ bucket "total_requests") :
    0 ≤ (getRealtimeMetrics bucket).cache_hit_rate
    ∧ (getRealtimeMetrics bucket).cache_hit_rate ≤ 100 := by
  by_cases ht : 0 < bucket "total_requests"
  · have hhits : 0 ≤ (getRealtimeMetrics bucket).cache_hits ∧
        (getRealtimeMetrics bucket).cache_hits ≤ bucket "total_requests" := by
      simp only [getRealtimeMetrics]
      split_ifs with hc
      · have h1 : (1 : ℤ) ≤ max 1 (Int.fdiv (bucket "total_requests") 10) := le_max_left _ _
        have h2 : max 1 (Int.fdiv (bucket "total_requests") 10) ≤ bucket "total_requests" := by
          apply max_le (by omega)
          rw [Int.fdiv_eq_ediv _ (by norm_num)]
          exact Int.ediv_le_self _ (le_of_lt ht)
        omega
      · omega
    have hrate : (getRealtimeMetrics bucket).cache_hit_rate =
        pyRound2 (((getRealtimeMetrics bucket).cache_hits : ℚ)
          / ((bucket "total_requests" : ℤ) : ℚ) * 100) := by
      simp only [getRealtimeMetrics, if_pos ht]
    rw [hrate]
    obtain ⟨hq0, hq1⟩ := frac100_bounds _ _ hhits.1 hhits.2 ht
    exact ⟨pyRound2_nonneg _ hq0, pyRound2_le_100 _ hq1⟩
  · have : (getRealtimeMetrics bucket).cache_hit_rate = 0 := by
      simp only [getRealtimeMetrics, if_neg ht]
    rw [this]
    norm_num

/-- Nat variant of `frac100_bounds`. -/
theorem frac100_bounds_nat (h t : ℕ) (hle : h ≤ t) (ht : 0 < t) :
    0 ≤ (h : ℚ) / (t : ℚ) * 100 ∧ (h : ℚ) / (t : ℚ) * 100 ≤ 100 := by
  have htq : (0 : ℚ) < (t : ℚ) := by exact_mod_cast ht
  have hleq : (h : ℚ) ≤ (t : ℚ) := by exact_mod_cast hle
  constructor
  · positivity
  · have : (h : ℚ) / (t : ℚ) ≤ 1 := (div_le_one htq).mpr hleq
    linarith

/-! ### C4: every computed rate is a genuine percentage -/

/-- C4: in each derivation that computes a rate — the real-time
snapshot's `cache_hit_rate` (over any sequence of ingested events), the
top-content per-row `cache_hit_rate`, and the daily report's
`cache_hit_rate` and `error_rate` — the value lies in `[0, 100]` and is
0 whenever its denominator is 0; in particular a daily report over a
date with no rows has `error_rate = 0` and `cache_hit_rate = 0` with no
division fault. -/
theorem rate_derivations_bounded :
    (∀ (dateOf : Int → String) (evs : List (Option String × TrackingData)) (k : String),
      0 ≤ (getRealtimeMetrics ((runTrack dateOf evs initialTrackState).redis.data k)).cache_hit_rate
      ∧ (getRealtimeMetrics ((runTrack dateOf evs initialTrackState).redis.data k)).cache_hit_rate ≤ 100)
    ∧ (∀ bucket : String → Int, bucket "total_requests" = 0 →
        (getRealtimeMetrics bucket).cache_hit_rate = 0)
    ∧ (∀ (f : FileDim) (rows : List RequestLog),
        (0 ≤ (topContentRow f rows).cache_hit_rate
          ∧ (topContentRow f rows).cache_hit_rate ≤ 100)
        ∧ (rows.length = 0 → (topContentRow f rows).cache_hit_rate = 0))
    ∧ (∀ (dateOf : Int → String) (logs : List RequestLog) (date : String),
        (0 ≤ (dailySummary dateOf logs date).cache_hit_rate
          ∧ (dailySummary dateOf logs date).cache_hit_rate ≤ 100)
        ∧ (0 ≤ (dailySummary dateOf logs date).error_rate
          ∧ (dailySummary dateOf logs date).error_rate ≤ 100)
        ∧ ((dailySummary dateOf logs date).cache_hits
            + (dailySummary dateOf logs date).cache_misses = 0 →
          (dailySummary dateOf logs date).cache_hit_rate = 0)
        ∧ ((dailySummary dateOf logs date).total_requests = 0 →
          (dailySummary dateOf logs date).error_rate = 0
          ∧ (dailySummary dateOf logs date).cache_hit_rate = 0)) := by
  refine ⟨?_, ?_, ?_, ?_⟩
  · intro dateOf evs k
    obtain ⟨hh, hH, hs⟩ := runTrack_inv dateOf evs initialTrackState initial_inv k
    exact realtime_rate_bound _ hh hH hs
  · intro bucket h0
    simp only [getRealtimeMetrics, if_neg (show ¬ (0 < bucket "total_requests") by omega)]
  · intro f rows
    constructor
    · simp only [topContentRow]
      split_ifs with hlen
      · have hle := List.length_filter_le (fun r => r.cache_status = "HIT") rows
        obtain ⟨hq0, hq1⟩ := frac100_bounds_nat _ _ hle hlen
        exact ⟨pyRound2_nonneg _ hq0, pyRound2_le_100 _ hq1⟩
      · norm_num
    · intro h0
      simp only [topContentRow, if_neg (show ¬ (0 < rows.length) by omega)]
  · intro dateOf logs date
    refine ⟨?_, ?_, ?_, ?_⟩
    · simp only [dailySummary]
      split_ifs with hden
      · have hle : (List.filter (fun r => r.cache_status = "HIT")
            (logs.filter (fun r => dateOf r.timestamp = date))).length ≤
            (List.filter (fun r => r.cache_status = "HIT")
              (logs.filter (fun r => dateOf r.timestamp = date))).length
            + (List.filter (fun r => r.cache_status = "MISS")
              (logs.filter (fun r => dateOf r.timestamp = date))).length :=
          Nat.le_add_right _ _
        obtain ⟨hq0, hq1⟩ := frac100_bounds_nat _ _ hle hden
        constructor
        · apply pyRound2_nonneg
          convert hq0 using 2
          push_cast
          ring
        · apply pyRound2_le_100
          convert hq1 using 2
          push_cast
          ring
      · norm_num
    · simp only [dailySummary]
      split_ifs with hden
      · have hle := List.length_filter_le (fun r => 400 ≤ r.status_code)
          (logs.filter (fun r => dateOf r.timestamp = date))
        obtain ⟨hq0, hq1⟩ := frac100_bounds_nat _ _ hle hden
        exact ⟨pyRound2_nonneg _ hq0, pyRound2_le_100 _ hq1⟩
      · norm_num
    · intro h0
      simp only [dailySummary] at h0 ⊢
      rw [if_neg (show ¬ _ by omega)]
    · intro h0
      simp only [dailySummary] at h0 ⊢
      have hhit : (List.filter (fun r => r.cache_status = "HIT")
          (logs.filter (fun r => dateOf r.timestamp = date))).length = 0 := by
        have := List.length_filter_le (fun r => r.cache_status = "HIT")
          (logs.filter (fun r => dateOf r.timestamp = date))
        omega
      have hmiss : (List.filter (fun r => r.cache_status = "MISS")
          (logs.filter (fun r => dateOf r.timestamp = date))).length = 0 := by
        have := List.length_filter_le (fun r => r.cache_status = "MISS")
          (logs.filter (fun r => dateOf r.timestamp = date))
        omega
      constructor
      · rw [if_neg (show ¬ _ by omega)]
      · rw [if_neg (show ¬ _ by omega)]

/-- A concrete file-dimension row used by witness theorems. -/
def sampleFile : FileDim :=
  { id := 1, filename := "a1.png", original_name := "logo.png"
    mimetype := "image/png", size := 2048 }

/-- Witness for C4: the bounds and zero-denominator cases at concrete
inputs — one ingested event for the snapshot bound, an all-zero bucket,
an empty top-content group, and a daily summary over a date with no
rows. -/
theorem rate_derivations_bounded_witness :
    (0 ≤ (getRealtimeMetrics ((runTrack sampleDateOf [(none, sampleEvent)]
          initialTrackState).redis.data "analytics:2023-11-14")).cache_hit_rate
      ∧ (getRealtimeMetrics ((runTrack sampleDateOf [(none, sampleEvent)]
          initialTrackState).redis.data "analytics:2023-11-14")).cache_hit_rate ≤ 100)
    ∧ ((fun _ => (0 : Int)) "total_requests" = 0
      ∧ (getRealtimeMetrics (fun _ => (0 : Int))).cache_hit_rate = 0)
    ∧ (([] : List RequestLog).length = 0
      ∧ (topContentRow sampleFile []).cache_hit_rate = 0)
    ∧ ((dailySummary sampleDateOf [] "2024-01-01").total_requests = 0
      ∧ (dailySummary sampleDateOf [] "2024-01-01").error_rate = 0
      ∧ (dailySummary sampleDateOf [] "2024-01-01").cache_hit_rate = 0) := by
  obtain ⟨hrt, hz, htc, hdy⟩ := rate_derivations_bounded
  exact ⟨hrt sampleDateOf [(none, sampleEvent)] "analytics:2023-11-14",
    ⟨rfl, hz _ rfl⟩,
    ⟨rfl, (htc sampleFile []).2 rfl⟩,
    ⟨rfl, ((hdy sampleDateOf [] "2024-01-01").2.2.2 rfl).1,
      ((hdy sampleDateOf [] "2024-01-01").2.2.2 rfl).2⟩⟩

/-! ### C5: casing of the cache outcome -/

theorem roundHalfEven_intCast (m : ℤ) : roundHalfEven (m : ℚ) = m := by
  have h : ratFloor (m : ℚ) = m := by rw [ratFloor_eq, Int.floor_intCast]
  simp only [roundHalfEven, h, sub_self]
  norm_num

theorem pyRound2_intCast (n : ℤ) : pyRound2 (n : ℚ) = n := by
  have h : ((n : ℚ)) * 100 = (((n * 100 : ℤ)) : ℚ) := by push_cast; ring
  rw [pyRound2, h, roundHalfEven_intCast]
  push_cast
  ring

theorem pyRound2_zero : pyRound2 0 = 0 := by
  have h := pyRound2_intCast 0
  simpa using h

theorem pyRound2_hundred : pyRound2 100 = 100 := by
  have h := pyRound2_intCast 100
  norm_num at h
  exact h

/-- A request-log row whose outcome is stored lower-cased. -/
def rowHitLower : RequestLog :=
  { id := 1, timestamp := 1000000, client_ip := "10.0.0.1", bytes_sent := 100
    response_time := 5, cache_status := "hit", status_code := 200
    country_code := none, region := "us", edge_server_id := 1, file_id := 1 }

/-- The same row with the outcome stored upper-cased. -/
def rowHitUpper : RequestLog :=
  { id := 1, timestamp := 1000000, client_ip := "10.0.0.1", bytes_sent := 100
    response_time := 5, cache_status := "HIT", status_code := 200
    country_code := none, region := "us", edge_server_id := 1, file_id := 1 }

/-- Single-row database with the lower-cased outcome. -/
def dbLower : Database :=
  { request_logs := [rowHitLower], files := [sampleFile], edge_servers := [] }

/-- Single-row database with the upper-cased outcome. -/
def dbUpper : Database :=
  { request_logs := [rowHitUpper], files := [sampleFile], edge_servers := [] }

/-- C5 counterexample: the top-content aggregation compares the stored
outcome case-sensitively against the literal `HIT`, so two databases
holding the same single request — once with outcome `hit`, once with
`HIT` (equal under lower-casing) — yield different hit totals (0 vs 1)
and different per-row hit rates (0 vs 100), refuting the claim that
every aggregation in the pipeline treats the outcome
case-insensitively. -/
theorem cache_case_sensitivity_counterexample :
    pyLower rowHitUpper.cache_status = pyLower rowHitLower.cache_status
    ∧ (getTopContent (.ok dbLower) 1000000 20).map (fun r => r.cache_hits) = [0]
    ∧ (getTopContent (.ok dbUpper) 1000000 20).map (fun r => r.cache_hits) = [1]
    ∧ (getTopContent (.ok dbLower) 1000000 20).map (fun r => r.cache_hit_rate) = [0]
    ∧ (getTopContent (.ok dbUpper) 1000000 20).map (fun r => r.cache_hit_rate) = [100] := by
  refine ⟨by decide, by decide, by decide, ?_, ?_⟩
  · have h1 : getTopContent (.ok dbLower) 1000000 20 =
        [topContentRow sampleFile [rowHitLower]] := rfl
    rw [h1]
    have hl : (([rowHitLower].filter (fun r => r.cache_status = "HIT")).length) = 0 := by
      decide
    simp only [List.map, topContentRow, hl, List.length_singleton]
    norm_num [pyRound2_zero]
  · have h1 : getTopContent (.ok dbUpper) 1000000 20 =
        [topContentRow sampleFile [rowHitUpper]] := rfl
    rw [h1]
    have hl : (([rowHitUpper].filter (fun r => r.cache_status = "HIT")).length) = 1 := by
      decide
    simp only [List.map, topContentRow, hl, List.length_singleton]
    norm_num [pyRound2_hundred]

theorem redisExt (r1 r2 : RedisState) (h1 : r1.live = r2.live)
    (h2 : r1.data = r2.data) (h3 : r1.ttl = r2.ttl) : r1 = r2 := by
  cases r1
  cases r2
  simp only [RedisState.mk.injEq]
  exact ⟨h1, h2, h3⟩

theorem bucketDelta_congr (d1 d2 : TrackingData)
    (hcs : pyLower d1.cache_status = pyLower d2.cache_status)
    (hbs : d1.bytes_sent = d2.bytes_sent) : bucketDelta d1 = bucketDelta d2 := by
  funext f
  simp only [bucketDelta, hcs, hbs]

/-- The Counter Cache effect of one `/track` call depends on the payload
only through its timestamp, its lower-cased outcome and its byte count. -/
theorem trackRequest_redis_congr (dateOf : Int → String) (oe : Option String)
    (d1 d2 : TrackingData) (hts : d1.timestamp = d2.timestamp)
    (hcs : pyLower d1.cache_status = pyLower d2.cache_status)
    (hbs : d1.bytes_sent = d2.bytes_sent) (s1 s2 : TrackState)
    (hr : s1.redis = s2.redis) :
    (trackRequest dateOf oe d1 s1).2.redis = (trackRequest dateOf oe d2 s2).2.redis := by
  cases oe with
  | some e => exact hr
  | none =>
    have hkey : bucketKey dateOf d1 = bucketKey dateOf d2 := by
      rw [bucketKey, bucketKey, hts]
    apply redisExt
    · funext k
      rw [trackRequest_ok_live, trackRequest_ok_live, hkey, hr]
    · funext k f
      rw [trackRequest_ok_data, trackRequest_ok_data, hkey, hr,
        bucketDelta_congr d1 d2 hcs hbs]
    · funext k
      rw [trackRequest_ok_ttl, trackRequest_ok_ttl, hkey, hr]

/-- C5 (amended): case-insensitivity holds on the Counter Cache path —
ingestion lower-cases the outcome, so event sequences that agree up to
outcome casing produce identical cache states and identical snapshot
metrics; and the snapshot merges the dual-cased counters, so buckets
with equal `cache_hit + cache_HIT` and `cache_miss + cache_MISS` sums
and equal `total_requests` yield the same hit/miss totals and rate —
but the SQL-backed aggregations compare the stored outcome
case-sensitively against `HIT`/`MISS` (see the counterexample). -/
theorem cache_case_insensitive_cache_path :
    (∀ (dateOf : Int → String) (evs1 evs2 : List (Option String × TrackingData))
        (s1 s2 : TrackState),
      List.Forall₂ (fun e1 e2 : Option String × TrackingData =>
        e1.1 = e2.1 ∧ e1.2.timestamp = e2.2.timestamp
        ∧ pyLower e1.2.cache_status = pyLower e2.2.cache_status
        ∧ e1.2.bytes_sent = e2.2.bytes_sent) evs1 evs2 →
      s1.redis = s2.redis →
      (runTrack dateOf evs1 s1).redis = (runTrack dateOf evs2 s2).redis)
    ∧ (∀ b1 b2 : String → Int,
        b1 "cache_hit" + b1 "cache_HIT" = b2 "cache_hit" + b2 "cache_HIT" →
        b1 "cache_miss" + b1 "cache_MISS" = b2 "cache_miss" + b2 "cache_MISS" →
        b1 "total_requests" = b2 "total_requests" →
        (getRealtimeMetrics b1).cache_hits = (getRealtimeMetrics b2).cache_hits
        ∧ (getRealtimeMetrics b1).cache_misses = (getRealtimeMetrics b2).cache_misses
        ∧ (getRealtimeMetrics b1).cache_hit_rate = (getRealtimeMetrics b2).cache_hit_rate) := by
  constructor
  · intro dateOf evs1 evs2 s1 s2 hF
    induction hF generalizing s1 s2 with
    | nil => intro hr; exact hr
    | @cons a b l1 l2 hab htail ih =>
      intro hr
      obtain ⟨hoe, hts, hcs, hbs⟩ := hab
      simp only [runTrack, List.foldl_cons]
      apply ih
      rw [← hoe]
      exact trackRequest_redis_congr dateOf a.1 a.2 b.2 hts hcs hbs s1 s2 hr
  · intro b1 b2 h1 h2 h3
    refine ⟨?_, ?_, ?_⟩ <;> simp only [getRealtimeMetrics] <;> rw [h1, h2, h3]

/-- The sample event with its outcome re-cased to lower. -/
def sampleEventLower : TrackingData :=
  { sampleEvent with cache_status := "hit" }

/-- A bucket whose outcome counters are all lower-cased. -/
def bucketLowerCased : String → Int := fun f =>
  if f = "cache_hit" then 7 else if f = "cache_miss" then 3
  else if f = "total_requests" then 10 else 0

/-- The same tallies recorded under the legacy upper-cased counters. -/
def bucketUpperCased : String → Int := fun f =>
  if f = "cache_HIT" then 7 else if f = "cache_MISS" then 3
  else if f = "total_requests" then 10 else 0

/-- Witness for the amended C5: ingesting `HIT` vs `hit` produces the
same cache state, and a bucket tallied under `cache_hit`/`cache_miss`
is read identically to one tallied under `cache_HIT`/`cache_MISS`. -/
theorem cache_case_insensitive_cache_path_witness :
    List.Forall₂ (fun e1 e2 : Option String × TrackingData =>
        e1.1 = e2.1 ∧ e1.2.timestamp = e2.2.timestamp
        ∧ pyLower e1.2.cache_status = pyLower e2.2.cache_status
        ∧ e1.2.bytes_sent = e2.2.bytes_sent)
      [(none, sampleEvent)] [(none, sampleEventLower)]
    ∧ (runTrack sampleDateOf [(none, sampleEvent)] initialTrackState).redis =
        (runTrack sampleDateOf [(none, sampleEventLower)] initialTrackState).redis
    ∧ (bucketLowerCased "cache_hit" + bucketLowerCased "cache_HIT" =
        bucketUpperCased "cache_hit" + bucketUpperCased "cache_HIT"
      ∧ bucketLowerCased "cache_miss" + bucketLowerCased "cache_MISS" =
        bucketUpperCased "cache_miss" + bucketUpperCased "cache_MISS"
      ∧ bucketLowerCased "total_requests" = bucketUpperCased "total_requests")
    ∧ (getRealtimeMetrics bucketLowerCased).cache_hits =
        (getRealtimeMetrics bucketUpperCased).cache_hits
    ∧ (getRealtimeMetrics bucketLowerCased).cache_misses =
        (getRealtimeMetrics bucketUpperCased).cache_misses
    ∧ (getRealtimeMetrics bucketLowerCased).cache_hit_rate =
        (getRealtimeMetrics bucketUpperCased).cache_hit_rate := by
  have hF : List.Forall₂ (fun e1 e2 : Option String × TrackingData =>
      e1.1 = e2.1 ∧ e1.2.timestamp = e2.2.timestamp
      ∧ pyLower e1.2.cache_status = pyLower e2.2.cache_status
      ∧ e1.2.bytes_sent = e2.2.bytes_sent)
      [(none, sampleEvent)] [(none, sampleEventLower)] :=
    List.Forall₂.cons ⟨rfl, rfl, by decide, rfl⟩ List.Forall₂.nil
  obtain ⟨hingest, hmerge⟩ := cache_case_insensitive_cache_path
  obtain ⟨m1, m2, m3⟩ := hmerge bucketLowerCased bucketUpperCased
    (by decide) (by decide) (by decide)
  exact ⟨hF, hingest sampleDateOf _ _ _ _ hF rfl,
    ⟨by decide, by decide, by decide⟩, m1, m2, m3⟩

/-- A concrete injective date formatter used by counterexample and
witness theorems. -/
def numDateOf : Int → String := fun t => toString t

/-! ### C6: fail-soft policy of the read paths -/

/-- C6 counterexample: two upstream-store error paths propagate instead
of degrading. The real-time snapshot method has no exception handler —
a store error while reading today's bucket propagates out of the
derivation and the HTTP layer surfaces it as a 500; and each of the
four relational reads calls `get_db_connection()` before its `try`
block, so a connection failure propagates out of the method rather
than producing the empty/degraded result the claim asserts. -/
theorem fail_soft_violations_counterexample :
    getRealtimeMetricsOp (.error "connection refused") = .error "connection refused"
    ∧ realtimeEndpoint (.error "connection refused") =
        .httpError 500 "connection refused"
    ∧ getGeographicDistributionFromConn (.connError "connection refused") 0 =
        .error "connection refused"
    ∧ getTopContentFromConn (.connError "connection refused") 0 20 =
        .error "connection refused"
    ∧ getEdgeServerPerformanceFromConn (.connError "connection refused") 0 =
        .error "connection refused"
    ∧ generateDailyReportFromConn numDateOf (.connError "connection refused")
        "2024-01-01" = .error "connection refused" :=
  ⟨rfl, rfl, rfl, rfl, rfl, rfl⟩

/-- C6 (amended): among the read-side derivations, only failures raised
inside an operation's `try` block are fail-soft: a query failure yields
the empty sequence (time series, top content, edge performance), the
empty geography result with `total_countries = 0`, or the degraded
date-plus-error report object, with the error logged. Two error paths
propagate instead: the real-time snapshot has no handler at all, and in
the four relational reads the connection is acquired before the `try`,
so a connection-establishment failure raises out of the method (each
route surfaces it as HTTP 500). -/
theorem read_derivations_failure_paths (e : String) (now : Int) (limit : Nat)
    (dateOf : Int → String) (date : String) :
    getTimeSeriesData (.error e) = []
    ∧ getGeographicDistribution (.error e) now =
        { countries := [], total_countries := 0 }
    ∧ getTopContent (.error e) now limit = []
    ∧ getEdgeServerPerformance (.error e) now = []
    ∧ generateDailyReport dateOf (.error e) date = .degraded date e
    ∧ getGeographicDistributionFromConn (.queryError e) now =
        .ok { countries := [], total_countries := 0 }
    ∧ getTopContentFromConn (.queryError e) now limit = .ok []
    ∧ getEdgeServerPerformanceFromConn (.queryError e) now = .ok []
    ∧ generateDailyReportFromConn dateOf (.queryError e) date =
        .ok (.degraded date e)
    ∧ getGeographicDistributionFromConn (.connError e) now = .error e
    ∧ getTopContentFromConn (.connError e) now limit = .error e
    ∧ getEdgeServerPerformanceFromConn (.connError e) now = .error e
    ∧ generateDailyReportFromConn dateOf (.connError e) date = .error e :=
  ⟨rfl, rfl, rfl, rfl, rfl, rfl, rfl, rfl, rfl, rfl, rfl, rfl, rfl⟩

/-! ### Retention cleanup: loop characterization -/

theorem cleanupDeleteLoop_ok_live (cs : List String) (i cnt : Nat)
    (r : RedisState) (k : String) :
    ((cleanupDeleteLoop .ok cs i cnt r).2).live k =
      (if k ∈ cs then false else r.live k) := by
  induction cs generalizing i cnt r with
  | nil => simp [cleanupDeleteLoop]
  | cons c cs ih =>
    simp only [cleanupDeleteLoop]
    rw [ih]
    by_cases hc : k = c
    · subst hc
      by_cases hm : k ∈ cs <;> simp [hm, RedisState.del]
    · by_cases hm : k ∈ cs <;> simp [hm, hc, RedisState.del]

theorem cleanupDeleteLoop_ok_count (cs : List String) (hnd : cs.Nodup)
    (i cnt : Nat) (r : RedisState) :
    (cleanupDeleteLoop .ok cs i cnt r).1 =
      .ok (cnt + (cs.filter (fun k => r.live k)).length) := by
  induction cs generalizing i cnt r with
  | nil => simp [cleanupDeleteLoop]
  | cons c cs ih =>
    obtain ⟨hc, hnd'⟩ := List.nodup_cons.mp hnd
    simp only [cleanupDeleteLoop]
    rw [ih hnd']
    have hfil : cs.filter (fun k => (RedisState.del r c).2.live k) =
        cs.filter (fun k => r.live k) := by
      apply List.filter_congr
      intro x hx
      have hxc : ¬ (x = c) := fun hxc => hc (hxc ▸ hx)
      simp [RedisState.del, hxc]
    rw [hfil]
    simp only [RedisState.del, List.filter_cons]
    by_cases hl : r.live c <;> simp [hl, Nat.add_assoc, Nat.add_comm 1]

theorem cleanupDeleteLoop_commit_eq_ok (msg : String) (cs : List String)
    (i cnt : Nat) (r : RedisState) :
    cleanupDeleteLoop (.commit msg) cs i cnt r = cleanupDeleteLoop .ok cs i cnt r := by
  induction cs generalizing i cnt r with
  | nil => rfl
  | cons c cs ih =>
    simp only [cleanupDeleteLoop]
    exact ih _ _ _

theorem cleanupDeleteLoop_fail (cs : List String) (j : Nat) (msg : String)
    (i cnt : Nat) (r : RedisState) (hij : i ≤ j) (hlt : j - i < cs.length) :
    (cleanupDeleteLoop (.redisAt j msg) cs i cnt r).1 = .error msg
    ∧ ∀ k, ((cleanupDeleteLoop (.redisAt j msg) cs i cnt r).2).live k =
        (if k ∈ cs.take (j - i) then false else r.live k) := by
  induction cs generalizing i cnt r with
  | nil => exact absurd hlt (by simp)
  | cons c cs ih =>
    by_cases hi : i = j
    · subst hi
      have ht : i - i = 0 := by omega
      simp [cleanupDeleteLoop, ht]
    · have hij' : i + 1 ≤ j := by omega
      have hlt' : j - (i + 1) < cs.length := by
        simp only [List.length_cons] at hlt
        omega
      obtain ⟨h1, h2⟩ := ih (i + 1) (cnt + if (RedisState.del r c).1 then 1 else 0)
        (RedisState.del r c).2 hij' hlt'
      have hstep : cleanupDeleteLoop (.redisAt j msg) (c :: cs) i cnt r =
          cleanupDeleteLoop (.redisAt j msg) cs (i + 1)
            (cnt + if (RedisState.del r c).1 then 1 else 0) (RedisState.del r c).2 := by
        simp [cleanupDeleteLoop, hi]
      rw [hstep]
      refine ⟨h1, fun k => ?_⟩
      rw [h2 k]
      obtain ⟨m, hm⟩ : ∃ m, j - i = m + 1 := ⟨j - i - 1, by omega⟩
      have hm' : j - (i + 1) = m := by omega
      rw [hm, hm', List.take_succ_cons]
      by_cases hc : k = c
      · subst hc
        by_cases hmem : k ∈ cs.take m <;> simp [hmem, RedisState.del]
      · by_cases hmem : k ∈ cs.take m <;> simp [hmem, hc, RedisState.del]

theorem cleanupDeleteLoop_ok_exists (cs : List String) (i cnt : Nat)
    (r : RedisState) : ∃ n, (cleanupDeleteLoop .ok cs i cnt r).1 = .ok n := by
  induction cs generalizing i cnt r with
  | nil => exact ⟨cnt, rfl⟩
  | cons c cs ih =>
    simp only [cleanupDeleteLoop]
    exact ih _ _ _

theorem cleanupCandidates_length (dateOf : Int → String) (now : Int)
    (daysToKeep : Nat) :
    (cleanupCandidates dateOf now daysToKeep).length = daysToKeep + 30 := by
  rw [cleanupCandidates]
  rw [List.length_map]
  rw [List.length_range]

/-! ### C7: what retention cleanup deletes -/

/-- C7: with `days_to_keep = D` and no failure, cleanup (a) deletes
exactly the log rows with timestamp older than the cutoff `now - D`
days — the remaining table is the filter keeping everything not older,
so no newer row is deleted and every older row is — reporting their
count, and (b) scans exactly `D + 30` candidate date keys backward from
the cutoff, deleting each existing candidate bucket and counting the
successful deletions. -/
theorem cleanup_retention_exact (dateOf : Int → String) (now : Int)
    (daysToKeep : Nat) (s : CleanupState)
    (hnd : (cleanupCandidates dateOf now daysToKeep).Nodup) :
    (cleanupOldData dateOf now daysToKeep .ok s).1 =
      .ok ((s.logs.filter
          (fun r => r.timestamp < now - (daysToKeep : Int) * 86400)).length,
        ((cleanupCandidates dateOf now daysToKeep).filter
          (fun k => s.redis.live k)).length)
    ∧ (cleanupOldData dateOf now daysToKeep .ok s).2.logs =
        s.logs.filter (fun r => ¬ r.timestamp < now - (daysToKeep : Int) * 86400)
    ∧ (∀ r ∈ (cleanupOldData dateOf now daysToKeep .ok s).2.logs,
        ¬ r.timestamp < now - (daysToKeep : Int) * 86400)
    ∧ (∀ r ∈ s.logs, ¬ r.timestamp < now - (daysToKeep : Int) * 86400 →
        r ∈ (cleanupOldData dateOf now daysToKeep .ok s).2.logs)
    ∧ (cleanupCandidates dateOf now daysToKeep).length = daysToKeep + 30
    ∧ (∀ k, (cleanupOldData dateOf now daysToKeep .ok s).2.redis.live k =
        if k ∈ cleanupCandidates dateOf now daysToKeep then false
        else s.redis.live k) := by
  have hloop1 := cleanupDeleteLoop_ok_count (cleanupCandidates dateOf now daysToKeep)
    hnd 0 0 s.redis
  rw [Nat.zero_add] at hloop1
  have hmain : cleanupOldData dateOf now daysToKeep .ok s =
      (.ok ((s.logs.filter
          (fun r => r.timestamp < now - (daysToKeep : Int) * 86400)).length,
        ((cleanupCandidates dateOf now daysToKeep).filter
          (fun k => s.redis.live k)).length),
       { logs := s.logs.filter
            (fun r => ¬ r.timestamp < now - (daysToKeep : Int) * 86400)
         redis := (cleanupDeleteLoop .ok (cleanupCandidates dateOf now daysToKeep)
            0 0 s.redis).2 }) := by
    simp only [cleanupOldData, hloop1]
  refine ⟨by rw [hmain], by rw [hmain], ?_, ?_,
    cleanupCandidates_length dateOf now daysToKeep, ?_⟩
  · intro r hr
    rw [hmain] at hr
    simp only [List.mem_filter, decide_eq_true_eq] at hr
    exact hr.2
  · intro r hr hk
    rw [hmain]
    simp only [List.mem_filter, decide_eq_true_eq]
    exact ⟨hr, hk⟩
  · intro k
    rw [hmain]
    exact cleanupDeleteLoop_ok_live _ 0 0 s.redis k

/-! ### C8: commit discipline and rollback of cleanup -/

/-- Did the injected cleanup failure actually fire (given the number of
scanned candidates)? -/
def failureFires : CleanupFail → Nat → Prop
  | .ok, _ => False
  | .sqlDelete _, _ => True
  | .redisAt j _, n => j < n
  | .commit _, _ => True

/-- The exception message an injected failure carries. -/
def failMsg : CleanupFail → String
  | .ok => ""
  | .sqlDelete m => m
  | .redisAt _ m => m
  | .commit m => m

/-- C8: cleanup commits the relational deletion only after both the
relational delete and the cache sweep succeed (on success the table is
the committed filter and the call returns a result), and on any
exception — in the SQL delete, in any in-range cache deletion, or at
commit — it rolls the relational deletion back, leaving the log table
unchanged, and re-raises the same exception. -/
theorem cleanup_commit_after_success_else_rollback (dateOf : Int → String)
    (now : Int) (daysToKeep : Nat) (fail : CleanupFail) (s : CleanupState) :
    ((cleanupOldData dateOf now daysToKeep .ok s).2.logs =
        s.logs.filter (fun r => ¬ r.timestamp < now - (daysToKeep : Int) * 86400)
      ∧ ((cleanupOldData dateOf now daysToKeep .ok s).1).isOk = true)
    ∧ (failureFires fail (daysToKeep + 30) →
        (cleanupOldData dateOf now daysToKeep fail s).1 = .error (failMsg fail)
        ∧ (cleanupOldData dateOf now daysToKeep fail s).2.logs = s.logs) := by
  constructor
  · obtain ⟨n, hn⟩ := cleanupDeleteLoop_ok_exists
      (cleanupCandidates dateOf now daysToKeep) 0 0 s.redis
    have hmain : cleanupOldData dateOf now daysToKeep .ok s =
        (.ok ((s.logs.filter
            (fun r => r.timestamp < now - (daysToKeep : Int) * 86400)).length, n),
         { logs := s.logs.filter
              (fun r => ¬ r.timestamp < now - (daysToKeep : Int) * 86400)
           redis := (cleanupDeleteLoop .ok (cleanupCandidates dateOf now daysToKeep)
              0 0 s.redis).2 }) := by
      simp only [cleanupOldData, hn]
    rw [hmain]
    exact ⟨rfl, rfl⟩
  · cases fail with
    | ok => intro h; exact absurd h (by simp [failureFires])
    | sqlDelete m => intro _; exact ⟨rfl, rfl⟩
    | redisAt j m =>
      intro hj
      have hj' : j < daysToKeep + 30 := hj
      have hlen := cleanupCandidates_length dateOf now daysToKeep
      obtain ⟨h1, _⟩ := cleanupDeleteLoop_fail
        (cleanupCandidates dateOf now daysToKeep) j m 0 0 s.redis (by omega)
        (by omega)
      have hmain : cleanupOldData dateOf now daysToKeep (.redisAt j m) s =
          (.error m,
           { logs := s.logs
             redis := (cleanupDeleteLoop (.redisAt j m)
                (cleanupCandidates dateOf now daysToKeep) 0 0 s.redis).2 }) := by
        simp only [cleanupOldData, h1]
      rw [hmain]
      exact ⟨rfl, rfl⟩
    | commit m =>
      intro _
      obtain ⟨n, hn⟩ := cleanupDeleteLoop_ok_exists
        (cleanupCandidates dateOf now daysToKeep) 0 0 s.redis
      have hn' : (cleanupDeleteLoop (.commit m)
          (cleanupCandidates dateOf now daysToKeep) 0 0 s.redis).1 = .ok n := by
        rw [cleanupDeleteLoop_commit_eq_ok]
        exact hn
      have hmain : cleanupOldData dateOf now daysToKeep (.commit m) s =
          (.error m,
           { logs := s.logs
             redis := (cleanupDeleteLoop (.commit m)
                (cleanupCandidates dateOf now daysToKeep) 0 0 s.redis).2 }) := by
        simp only [cleanupOldData, hn']
      rw [hmain]
      exact ⟨rfl, rfl⟩

/-! ### C9: cache deletions are not compensated -/

/-- C9: if cleanup fails after some cache buckets were already deleted —
at the `j`-th cache deletion or at commit — the rollback restores only
the relational table: the candidates processed before the failure stay
deleted from the Counter Cache (all of them, when the failure is at
commit), while the log table is fully restored. -/
theorem cleanup_cache_deletions_not_compensated (dateOf : Int → String)
    (now : Int) (daysToKeep : Nat) (j : Nat) (msg : String) (s : CleanupState)
    (hj : j < daysToKeep + 30) :
    (cleanupOldData dateOf now daysToKeep (.redisAt j msg) s).1 = .error msg
    ∧ (cleanupOldData dateOf now daysToKeep (.redisAt j msg) s).2.logs = s.logs
    ∧ (∀ k, (cleanupOldData dateOf now daysToKeep (.redisAt j msg) s).2.redis.live k =
        if k ∈ (cleanupCandidates dateOf now daysToKeep).take j then false
        else s.redis.live k)
    ∧ (cleanupOldData dateOf now daysToKeep (.commit msg) s).2.logs = s.logs
    ∧ (∀ k, (cleanupOldData dateOf now daysToKeep (.commit msg) s).2.redis.live k =
        if k ∈ cleanupCandidates dateOf now daysToKeep then false
        else s.redis.live k) := by
  have hlen := cleanupCandidates_length dateOf now daysToKeep
  obtain ⟨h1, h2⟩ := cleanupDeleteLoop_fail
    (cleanupCandidates dateOf now daysToKeep) j msg 0 0 s.redis (by omega) (by omega)
  have hmain : cleanupOldData dateOf now daysToKeep (.redisAt j msg) s =
      (.error msg,
       { logs := s.logs
         redis := (cleanupDeleteLoop (.redisAt j msg)
            (cleanupCandidates dateOf now daysToKeep) 0 0 s.redis).2 }) := by
    simp only [cleanupOldData, h1]
  obtain ⟨n, hn⟩ := cleanupDeleteLoop_ok_exists
    (cleanupCandidates dateOf now daysToKeep) 0 0 s.redis
  have hn' : (cleanupDeleteLoop (.commit msg)
      (cleanupCandidates dateOf now daysToKeep) 0 0 s.redis).1 = .ok n := by
    rw [cleanupDeleteLoop_commit_eq_ok]
    exact hn
  have hmainc : cleanupOldData dateOf now daysToKeep (.commit msg) s =
      (.error msg,
       { logs := s.logs
         redis := (cleanupDeleteLoop (.commit msg)
            (cleanupCandidates dateOf now daysToKeep) 0 0 s.redis).2 }) := by
    simp only [cleanupOldData, hn']
  refine ⟨by rw [hmain], by rw [hmain], ?_, by rw [hmainc], ?_⟩
  · intro k
    rw [hmain]
    have := h2 k
    simpa using this
  · intro k
    rw [hmainc, cleanupDeleteLoop_commit_eq_ok]
    exact cleanupDeleteLoop_ok_live _ 0 0 s.redis k

/-- A log row older than every retention cutoff used in witnesses. -/
def logOld : RequestLog :=
  { id := 1, timestamp := -100, client_ip := "10.0.0.1", bytes_sent := 10
    response_time := 3, cache_status := "HIT", status_code := 200
    country_code := none, region := "us", edge_server_id := 1, file_id := 1 }

/-- A log row newer than the witnesses' retention cutoff. -/
def logNew : RequestLog :=
  { id := 2, timestamp := 100, client_ip := "10.0.0.2", bytes_sent := 20
    response_time := 4, cache_status := "MISS", status_code := 404
    country_code := some "DE", region := "eu", edge_server_id := 2, file_id := 1 }

/-- A concrete cleanup-state: one stale row, one fresh row, and one live
cache bucket among the scanned candidates. -/
def sampleCleanupState : CleanupState :=
  { logs := [logOld, logNew]
    redis :=
      { live := fun k => k == "analytics:-86400"
        data := fun _ _ => 0
        ttl := fun _ => none } }

/-- Witness for C7 at `days_to_keep = 0`, `now = 0`: the stale row is
deleted and the fresh row kept, 30 candidate keys are scanned, and the
single live candidate bucket is counted and deleted. -/
theorem cleanup_retention_exact_witness :
    (cleanupCandidates numDateOf 0 0).Nodup
    ∧ (cleanupOldData numDateOf 0 0 .ok sampleCleanupState).1 = .ok (1, 1)
    ∧ (cleanupOldData numDateOf 0 0 .ok sampleCleanupState).2.logs = [logNew]
    ∧ (cleanupCandidates numDateOf 0 0).length = 0 + 30
    ∧ (cleanupOldData numDateOf 0 0 .ok sampleCleanupState).2.redis.live
        "analytics:-86400" = false := by
  have h := cleanup_retention_exact numDateOf 0 0 sampleCleanupState (by decide)
  refine ⟨by decide, ?_, ?_, h.2.2.2.2.1, ?_⟩
  · rw [h.1]
    have hp : ((sampleCleanupState.logs.filter
          (fun r => r.timestamp < 0 - ((0 : Nat) : Int) * 86400)).length,
        ((cleanupCandidates numDateOf 0 0).filter
          (fun k => sampleCleanupState.redis.live k)).length) = (1, 1) := by decide
    rw [hp]
  · rw [h.2.1]
    decide
  · rw [h.2.2.2.2.2 "analytics:-86400"]
    decide

/-- Witness for C8 at an injected commit failure: the call re-raises the
same message and the log table is left unchanged (and the no-failure run
commits the filtered table). -/
theorem cleanup_commit_after_success_else_rollback_witness :
    failureFires (.commit "disk full") (0 + 30)
    ∧ (cleanupOldData numDateOf 0 0 (.commit "disk full") sampleCleanupState).1 =
        .error (failMsg (.commit "disk full"))
    ∧ (cleanupOldData numDateOf 0 0 (.commit "disk full") sampleCleanupState).2.logs =
        sampleCleanupState.logs
    ∧ (cleanupOldData numDateOf 0 0 .ok sampleCleanupState).1.isOk = true := by
  have h := cleanup_commit_after_success_else_rollback numDateOf 0 0
    (.commit "disk full") sampleCleanupState
  exact ⟨trivial, (h.2 trivial).1, (h.2 trivial).2, h.1.2⟩

/-- Witness for C9 at a failure injected before the second cache
deletion: the relational table is restored, the first candidate bucket
(the cutoff date itself, not live here) stays non-live, the live
`analytics:-86400` bucket (scanned later) is untouched. -/
theorem cleanup_cache_deletions_not_compensated_witness :
    1 < 0 + 30
    ∧ (cleanupOldData numDateOf 0 0 (.redisAt 1 "timeout") sampleCleanupState).1 =
        .error "timeout"
    ∧ (cleanupOldData numDateOf 0 0 (.redisAt 1 "timeout") sampleCleanupState).2.logs =
        sampleCleanupState.logs
    ∧ (cleanupOldData numDateOf 0 0 (.redisAt 1 "timeout")
        sampleCleanupState).2.redis.live "analytics:-86400" = true
    ∧ (cleanupOldData numDateOf 0 0 (.commit "disk full")
        sampleCleanupState).2.redis.live "analytics:-86400" = false := by
  have h := cleanup_cache_deletions_not_compensated numDateOf 0 0 1 "timeout"
    sampleCleanupState (by decide)
  have hc := cleanup_cache_deletions_not_compensated numDateOf 0 0 1 "disk full"
    sampleCleanupState (by decide)
  refine ⟨by decide, h.1, h.2.1, ?_, ?_⟩
  · rw [h.2.2.1 "analytics:-86400"]
    decide
  · rw [hc.2.2.2.2 "analytics:-86400"]
    decide

/-! ### C10: date validation of the daily-report endpoint -/

/-- C10: any date string `strptime` rejects as `YYYY-MM-DD` (including
calendar-invalid ones such as `2024-13-40`) makes the endpoint answer
HTTP 400 with the fixed client-error detail, and
`generate_daily_report` is never invoked (the returned flag is
`false`). -/
theorem invalid_date_rejected_400 (dateOf : Int → String)
    (queryRes : Except String Database) (date : String)
    (h : parseYMD date = none) :
    getDailyReportEndpoint dateOf queryRes date =
      (.httpError 400 "Invalid date format. Use YYYY-MM-DD", false) := by
  simp only [getDailyReportEndpoint, h]

/-- Witness for C10 at the spec's example `2024-13-40`: month 13 and day
40 fail `strptime`, the endpoint answers 400, the engine flag is
`false`. -/
theorem invalid_date_rejected_400_witness :
    parseYMD "2024-13-40" = none
    ∧ getDailyReportEndpoint numDateOf (.error "unused") "2024-13-40" =
        (.httpError 400 "Invalid date format. Use YYYY-MM-DD", false) :=
  ⟨by decide,
    invalid_date_rejected_400 numDateOf (.error "unused") "2024-13-40" (by decide)⟩

end CDN
